import Mathlib

/-!
# Verification of the dialectic multi-pass reasoning harness

Shallow embedding of `src/backend/scratchpad.py` and the relevant parts of
`src/backend/harness_lite.py`.

Modelling conventions:
* Python `float` is modelled as `ℚ` (exact rational arithmetic; the
  quantities involved are small decimal literals and the claims state
  tolerances that absorb binary-float rounding).
* Python `datetime` values are modelled as `ℕ` clock readings; operations
  that call `datetime.now()` take an explicit `now : ℕ` argument.
  `datetime.isoformat`/`fromisoformat` round-trip exactly, so serialization
  of timestamps is modelled as the identity.
* Python strings are Lean `String`s; `re.findall` over the marker patterns
  `\[TAG\]([^\[]*?)(?=\[|$)` is modelled by a position scan: every
  occurrence of the literal `[TAG]` yields one match whose content is the
  run of characters up to the next `[` or end of text.  (The regex match
  span is `[TAG]` plus that bracket-free content, and a new occurrence can
  never begin strictly inside a previous span because the only `[` in a
  span is its first character — so the non-overlapping `findall` semantics
  coincide with the all-positions scan.)
-/

/- The Batteries arithmetic primitives on `Rat` are `@[irreducible]`,
which blocks `decide` on concrete rational computations.  Restore the
ordinary reducibility so the evaluation of the embedded operations on
concrete inputs can be checked by `decide`. -/
set_option allowUnsafeReducibility true in
attribute [semireducible] Rat.mul Rat.add Rat.sub Rat.inv

namespace Dialectic

/-! ## Basic string utilities (Python `str` operations used by the code) -/

/-- Python `' '.join(xs)` / `'\n'.join(xs)`. -/
def joinWith (sep : String) : List String → String
  | [] => ""
  | [a] => a
  | a :: b :: rest => a ++ sep ++ joinWith sep (b :: rest)

/-- Python `min(a, b)` on floats.  (Defined by `if` over the decidable
order on `ℚ` so the kernel can evaluate it; equal to `min`.) -/
def pyMin (a b : ℚ) : ℚ := if a ≤ b then a else b

/-- Python `max(a, b)` on floats. -/
def pyMax (a b : ℚ) : ℚ := if a ≤ b then b else a

/-- Python `abs(x)` on floats. -/
def pyAbs (x : ℚ) : ℚ := if x < 0 then -x else x

/-- Case-insensitive character comparison (Python `re.IGNORECASE`). -/
def lowerEq (a b : Char) : Bool := a.toLower == b.toLower

/-- Case-insensitive list-prefix test. -/
def ciIsPrefix : List Char → List Char → Bool
  | [], _ => true
  | _ :: _, [] => false
  | p :: ps, c :: cs => lowerEq p c && ciIsPrefix ps cs

/-- The bracketed pattern `[TAG]` as a character list. -/
def tagPattern (tag : String) : List Char := '[' :: tag.data ++ [']']

/-- All matches of `re.findall(r'\[TAG\]([^\[]*?)(?=\[|$)', s)` with
`re.IGNORECASE`: one content per occurrence of `[TAG]` (case-insensitive),
the content being everything up to the next `[` or end of text. -/
def findTagMatchesCI (pat : List Char) : List Char → List (List Char)
  | [] => []
  | c :: rest =>
    if ciIsPrefix pat (c :: rest) then
      ((c :: rest).drop pat.length).takeWhile (fun ch => ch ≠ '[')
        :: findTagMatchesCI pat rest
    else
      findTagMatchesCI pat rest

/-- Case-sensitive variant (the fallacy / evidence-marker regexes in
`ConfidenceModel.update_from_critique` are compiled without
`re.IGNORECASE`). -/
def findTagMatches (pat : List Char) : List Char → List (List Char)
  | [] => []
  | c :: rest =>
    if pat.isPrefixOf (c :: rest) then
      ((c :: rest).drop pat.length).takeWhile (fun ch => ch ≠ '[')
        :: findTagMatches pat rest
    else
      findTagMatches pat rest

/-- Number of case-insensitive occurrences of `[TAG]` in `s`
(`len(re.findall(r'\[TAG\]', s, re.IGNORECASE))`). -/
def countTagCI (tag : String) (s : String) : ℕ :=
  (findTagMatchesCI (tagPattern tag) s.data).length

/-- Number of case-sensitive occurrences of `[TAG]` in `s`. -/
def countTag (tag : String) (s : String) : ℕ :=
  (findTagMatches (tagPattern tag) s.data).length

/-! ## Data model -/

/-- `KeyEvidence.direction` literal type. -/
inductive Direction
  | supports | challenges | neutral
deriving DecidableEq, Repr

/-- `AnalysisMode` literal type. -/
inductive AnalysisMode
  | forward | retrospective
deriving DecidableEq, Repr

/-- `KeyEvidence` dataclass: critical evidence that should never be
compressed. -/
structure KeyEvidence where
  content : String
  source : String
  strength : ℚ
  direction : Direction
  timestamp : String
deriving DecidableEq, Repr

/-- The section kinds (`SectionType` literal type). -/
inductive SectionType
  | insights | evidence | risks | counters | questions
  | patterns | decisions | meta | claims | branches
deriving DecidableEq, Repr

/-- `Section` dataclass. -/
structure Section where
  type : SectionType
  content : List String := []
  last_updated : ℕ := 0
  preserved : Bool := false
deriving DecidableEq, Repr

/-- `ThesisBranch` dataclass. -/
structure ThesisBranch where
  id : String
  thesis : String
  confidence : ℚ := 1/2
  parent_id : Option String := none
  created_cycle : ℕ := 0
  is_active : Bool := true
deriving DecidableEq, Repr

/-- `ConfidenceModel` dataclass. -/
structure ConfidenceModel where
  reasoning_quality : ℚ := 1
  evidence_quality : ℚ := 1
  conclusion_confidence : ℚ := 1/2
  analysis_mode : AnalysisMode := .retrospective
  fallacies_found : List String := []
  evidence_gaps : List String := []
  retrospective_insights : List String := []
deriving DecidableEq, Repr

/-- The ten-section store of `Scratchpad.sections`, in the insertion order
established by `__post_init__` (which is also Python dict iteration
order). -/
structure Sections where
  claims : Section
  insights : Section
  evidence : Section
  risks : Section
  counters : Section
  questions : Section
  patterns : Section
  decisions : Section
  meta : Section
  branches : Section
deriving DecidableEq, Repr

/-- Lookup `self.sections[section_type]`. -/
def Sections.get (ss : Sections) : SectionType → Section
  | .claims => ss.claims
  | .insights => ss.insights
  | .evidence => ss.evidence
  | .risks => ss.risks
  | .counters => ss.counters
  | .questions => ss.questions
  | .patterns => ss.patterns
  | .decisions => ss.decisions
  | .meta => ss.meta
  | .branches => ss.branches

/-- In-place update `self.sections[section_type] = sec`. -/
def Sections.set (ss : Sections) : SectionType → Section → Sections
  | .claims, sec => { ss with claims := sec }
  | .insights, sec => { ss with insights := sec }
  | .evidence, sec => { ss with evidence := sec }
  | .risks, sec => { ss with risks := sec }
  | .counters, sec => { ss with counters := sec }
  | .questions, sec => { ss with questions := sec }
  | .patterns, sec => { ss with patterns := sec }
  | .decisions, sec => { ss with decisions := sec }
  | .meta, sec => { ss with meta := sec }
  | .branches, sec => { ss with branches := sec }

/-- `self.sections.items()` in dict-insertion order. -/
def Sections.toList (ss : Sections) : List Section :=
  [ss.claims, ss.insights, ss.evidence, ss.risks, ss.counters,
   ss.questions, ss.patterns, ss.decisions, ss.meta, ss.branches]

/-- Apply a transformation to every section (used for the compression
tiers; the source iterates the sections in a sorted order, but each section
is transformed independently of the others, so the result does not depend
on the iteration order). -/
def Sections.mapAll (f : Section → Section) (ss : Sections) : Sections :=
  { claims := f ss.claims, insights := f ss.insights,
    evidence := f ss.evidence, risks := f ss.risks,
    counters := f ss.counters, questions := f ss.questions,
    patterns := f ss.patterns, decisions := f ss.decisions,
    meta := f ss.meta, branches := f ss.branches }

/-- The default sections built by `Scratchpad.__post_init__`. -/
def defaultSections (now : ℕ) : Sections :=
  { claims := { type := .claims, last_updated := now, preserved := true }
    insights := { type := .insights, last_updated := now, preserved := true }
    evidence := { type := .evidence, last_updated := now, preserved := true }
    risks := { type := .risks, last_updated := now, preserved := false }
    counters := { type := .counters, last_updated := now, preserved := true }
    questions := { type := .questions, last_updated := now, preserved := false }
    patterns := { type := .patterns, last_updated := now, preserved := true }
    decisions := { type := .decisions, last_updated := now, preserved := true }
    meta := { type := .meta, last_updated := now, preserved := false }
    branches := { type := .branches, last_updated := now, preserved := true } }

/-- `Scratchpad` dataclass.  `BRANCH_CONFIDENCE_THRESHOLD` and
`MAX_BRANCHES` carry type annotations in the source dataclass, so they are
instance fields (participating in `==`); `MAX_TOKENS` has no annotation and
is a class attribute (modelled as the constant `MAX_TOKENS` below). -/
structure Scratchpad where
  session_id : String
  title : String
  sections : Sections
  confidence_history : List ℚ := []
  current_confidence : ℚ := 1/2
  cycle_count : ℕ := 0
  created : ℕ := 0
  last_updated : ℕ := 0
  confidence_model : ConfidenceModel := {}
  key_evidence : List KeyEvidence := []
  insight_counts : List ℕ := []
  branches : List ThesisBranch := []
  current_branch_id : Option String := none
  BRANCH_CONFIDENCE_THRESHOLD : ℚ := 2/5
  MAX_BRANCHES : ℕ := 3
deriving DecidableEq, Repr

/-- `Scratchpad.MAX_TOKENS` class attribute. -/
def MAX_TOKENS : ℕ := 8000

/-- `Scratchpad(session_id=..., title=...)` with the default sections
installed by `__post_init__`. -/
def Scratchpad.new (sid title : String) (now : ℕ) : Scratchpad :=
  { session_id := sid, title := title, sections := defaultSections now,
    created := now, last_updated := now }

/-! ## ConfidenceModel operations -/

/-- Keys of `FALLACY_MARKERS_ALWAYS`, in dict-insertion order. -/
def ALWAYS_FALLACY_TAGS : List String :=
  ["FALSE_DICHOTOMY", "SUNK_COST", "CONFIRMATION", "PLANNING_FALLACY",
   "CIRCULAR", "AUTHORITY"]

/-- Keys of `FALLACY_MARKERS_FORWARD_ONLY`, in dict-insertion order. -/
def FORWARD_ONLY_FALLACY_TAGS : List String := ["SURVIVORSHIP", "HINDSIGHT"]

/-- Keys of `EVIDENCE_QUALITY_MARKERS`, in dict-insertion order. -/
def EVIDENCE_QUALITY_TAGS : List String :=
  ["UNVERIFIED", "INCOMPLETE", "CONTRADICTED", "UNSTABLE", "DATED"]

/-- The issue strings `f"{marker}: {match.strip()[:100]}"` produced for one
marker over one critique text. -/
def issuesFor (tag : String) (text : String) : List String :=
  (findTagMatches (tagPattern tag) text.data).map
    (fun cs => tag ++ ": " ++ ((String.mk cs).trim.take 100))

/-- All issue strings for a list of markers, in marker-major order (the
order in which the source's nested loops produce them). -/
def issuesForAll (tags : List String) (text : String) : List String :=
  (tags.map (fun tag => issuesFor tag text)).flatten

/-- Append each element of `xs` to `acc` unless already present
(`if issue not in lst: lst.append(issue)`). -/
def dedupAppend (acc : List String) (xs : List String) : List String :=
  xs.foldl (fun a x => if x ∈ a then a else a ++ [x]) acc

/-- `ConfidenceModel.update_from_critique`: count fallacy and
evidence-quality markers found in this critique text (mode-filtered),
record the cumulative issue lists, and recompute `reasoning_quality` and
`evidence_quality` from this cycle's counts. -/
def ConfidenceModel.update_from_critique (m : ConfidenceModel)
    (critique_text : String) : ConfidenceModel :=
  let alwaysIssues := issuesForAll ALWAYS_FALLACY_TAGS critique_text
  let forwardOnlyIssues := issuesForAll FORWARD_ONLY_FALLACY_TAGS critique_text
  let cycle_fallacies :=
    alwaysIssues ++
      (if m.analysis_mode = .forward then forwardOnlyIssues else [])
  let fallacies_found := dedupAppend m.fallacies_found cycle_fallacies
  let retrospective_insights :=
    if m.analysis_mode = .forward then m.retrospective_insights
    else dedupAppend m.retrospective_insights forwardOnlyIssues
  let cycle_evidence_gaps := issuesForAll EVIDENCE_QUALITY_TAGS critique_text
  let evidence_gaps := dedupAppend m.evidence_gaps cycle_evidence_gaps
  let nf := cycle_fallacies.length
  let reasoning_quality :=
    if nf = 0 then pyMin 1 (m.reasoning_quality + 1/10)
    else if nf ≤ 2 then pyMax (1/2) (9/10 - (nf : ℚ) * (15/100))
    else pyMax (3/10) (9/10 - (nf : ℚ) * (15/100))
  let ng := cycle_evidence_gaps.length
  let evidence_quality :=
    if ng = 0 then pyMin 1 (m.evidence_quality + 1/10)
    else if ng ≤ 2 then pyMax (1/2) (9/10 - (ng : ℚ) * (15/100))
    else pyMax (3/10) (9/10 - (ng : ℚ) * (15/100))
  { m with
    reasoning_quality := reasoning_quality,
    evidence_quality := evidence_quality,
    fallacies_found := fallacies_found,
    evidence_gaps := evidence_gaps,
    retrospective_insights := retrospective_insights }

/-- `ConfidenceModel.composite_confidence` property. -/
def ConfidenceModel.composite_confidence (m : ConfidenceModel) : ℚ :=
  (m.reasoning_quality + m.evidence_quality + m.conclusion_confidence) / 3

/-! ## Scratchpad operations -/

/-- `Scratchpad.estimate_tokens`: characters of `' '.join(content)` summed
over all sections, integer-divided by 4. -/
def Scratchpad.estimate_tokens (s : Scratchpad) : ℕ :=
  ((s.sections.toList.map (fun sec => (joinWith " " sec.content).length)).sum) / 4

/-- Tier-1 compression of one section: non-preserved sections keep only
their 5 most recent items. -/
def compressTier1 (sec : Section) : Section :=
  if sec.preserved then sec
  else if 5 < sec.content.length then
    { sec with content := sec.content.drop (sec.content.length - 5) }
  else sec

/-- Tier-2 compression of one section: preserved sections keep only their
10 most recent items. -/
def compressTier2 (sec : Section) : Section :=
  if ¬sec.preserved then sec
  else if 10 < sec.content.length then
    { sec with content := sec.content.drop (sec.content.length - 10) }
  else sec

/-- `Scratchpad._compress`: truncate non-preserved sections to their last 5
items; if the token estimate still exceeds the budget, truncate preserved
sections to their last 10 items.  (The source iterates a
priority-sorted copy of the section list, but each section is truncated
independently, so the iteration order does not affect the result.) -/
def Scratchpad.compressPad (s : Scratchpad) : Scratchpad :=
  let s1 := { s with sections := s.sections.mapAll compressTier1 }
  if MAX_TOKENS < s1.estimate_tokens then
    { s1 with sections := s1.sections.mapAll compressTier2 }
  else s1

/-- The `SEMANTIC_MARKERS` keys with their target sections, in
dict-insertion order (which is also the `marker_to_section` mapping). -/
def SEMANTIC_TAGS : List (String × SectionType) :=
  [("INSIGHT", .insights), ("EVIDENCE", .evidence), ("RISK", .risks),
   ("COUNTER", .counters), ("PATTERN", .patterns), ("QUESTION", .questions),
   ("DECISION", .decisions), ("META", .meta), ("BRANCH", .branches)]

/-- Merge the matches of one semantic marker into its target section:
strip each match, and append it iff non-empty and not already present,
counting the newly inserted items. -/
def mergeMatches (sec : Section) (ms : List String) (now : ℕ) :
    Section × ℕ :=
  ms.foldl
    (fun acc m =>
      let content := m.trim
      if content ≠ "" ∧ content ∉ acc.1.content then
        ({ acc.1 with content := acc.1.content ++ [content],
                      last_updated := now },
         acc.2 + 1)
      else acc)
    (sec, 0)

/-- `Scratchpad.extract_and_merge`: harvest every semantic marker from the
text into its section, bump `last_updated`, compress if the token estimate
exceeds `MAX_TOKENS`, and return the count of newly inserted items
together with the updated scratchpad. -/
def Scratchpad.extract_and_merge (s : Scratchpad) (text : String)
    (now : ℕ) : ℕ × Scratchpad :=
  let step := SEMANTIC_TAGS.foldl
    (fun (acc : Sections × ℕ) ts =>
      let ms := (findTagMatchesCI (tagPattern ts.1) text.data).map String.mk
      let merged := mergeMatches (acc.1.get ts.2) ms now
      (acc.1.set ts.2 merged.1, acc.2 + merged.2))
    (s.sections, 0)
  let s' := { s with sections := step.1, last_updated := now }
  let s'' := if MAX_TOKENS < s'.estimate_tokens then s'.compressPad else s'
  (step.2, s'')

/-- `Scratchpad.add_claim`. -/
def Scratchpad.add_claim (s : Scratchpad)
    (claim_id text claim_type snippet : String) (now : ℕ) : Scratchpad :=
  let claim_str :=
    "@" ++ claim_id ++ " [" ++ claim_type ++ "]: " ++ text ++
      "\n  Quote: \"" ++ snippet.take 200 ++ "...\""
  if claim_str ∈ s.sections.claims.content then s
  else
    let sec :=
      { s.sections.claims with
        content := s.sections.claims.content ++ [claim_str],
        last_updated := now }
    { s with sections := s.sections.set SectionType.claims sec }

/-- `Scratchpad.add_key_evidence`: append a new anchor unless an existing
anchor already has the same content. -/
def Scratchpad.add_key_evidence (s : Scratchpad) (content source : String)
    (strength : ℚ) (direction : Direction) (timestamp : String) (now : ℕ) :
    Scratchpad :=
  if s.key_evidence.any (fun e => e.content == content) then s
  else
    { s with
      key_evidence := s.key_evidence ++
        [{ content := content, source := source, strength := strength,
           direction := direction, timestamp := timestamp }],
      last_updated := now }

/-- `Scratchpad.update_confidence` (legacy single-value path): push the old
`current_confidence` onto the history, clamp the new value into `[0, 1]`,
and mirror it into `confidence_model.conclusion_confidence`. -/
def Scratchpad.update_confidence (s : Scratchpad) (new_confidence : ℚ)
    (now : ℕ) : Scratchpad :=
  let clamped := pyMax 0 (pyMin 1 new_confidence)
  { s with
    confidence_history := s.confidence_history ++ [s.current_confidence],
    current_confidence := clamped,
    confidence_model :=
      { s.confidence_model with conclusion_confidence := clamped },
    last_updated := now }

/-- `Scratchpad.update_confidence_from_critique`: push the old
`current_confidence`, update the model from the critique markers, clamp
the declared conclusion confidence, and set `current_confidence` to the
composite. -/
def Scratchpad.update_confidence_from_critique (s : Scratchpad)
    (critique_text : String) (conclusion_confidence : ℚ) (now : ℕ) :
    Scratchpad :=
  let model :=
    { s.confidence_model.update_from_critique critique_text with
      conclusion_confidence := pyMax 0 (pyMin 1 conclusion_confidence) }
  { s with
    confidence_history := s.confidence_history ++ [s.current_confidence],
    confidence_model := model,
    current_confidence := model.composite_confidence,
    last_updated := now }

/-- `Scratchpad.increment_cycle`. -/
def Scratchpad.increment_cycle (s : Scratchpad) (now : ℕ) : Scratchpad :=
  { s with cycle_count := s.cycle_count + 1, last_updated := now }

/-- `Scratchpad.record_cycle_insights`. -/
def Scratchpad.record_cycle_insights (s : Scratchpad) (count : ℕ)
    (now : ℕ) : Scratchpad :=
  { s with insight_counts := s.insight_counts ++ [count],
           last_updated := now }

/-! ## Decimal formatting

Python's f-string `f"{n}"` renders a non-negative integer in standard
decimal notation.  `natRepr` below is that decimal rendering, built on
Mathlib's `Nat.digits` so that injectivity is provable. -/

/-- Decimal digit character for `d < 10` (Python never needs more). -/
def digitChar : ℕ → Char
  | 0 => '0' | 1 => '1' | 2 => '2' | 3 => '3' | 4 => '4'
  | 5 => '5' | 6 => '6' | 7 => '7' | 8 => '8' | 9 => '9'
  | _ => '?'

/-- Little-endian decimal digits with explicit fuel, so the definition is
structural recursion (reducible by the kernel).  `toDigitsRev n n` equals
`Nat.digits 10 n` (proved below). -/
def toDigitsRev (fuel : ℕ) (n : ℕ) : List ℕ :=
  match fuel with
  | 0 => []
  | fuel + 1 => if n = 0 then [] else n % 10 :: toDigitsRev fuel (n / 10)

/-- Standard decimal rendering of a natural number (the behaviour of
Python's `f"{n}"` and `str(n)`). -/
def natRepr (n : ℕ) : String :=
  if n = 0 then "0"
  else String.mk (((toDigitsRev n n).map digitChar).reverse)

/-- Python `f"{z}"` for an integer (only used with non-negative values in
this code base, but total). -/
def intRepr (z : ℤ) : String :=
  if z < 0 then "-" ++ natRepr z.natAbs else natRepr z.natAbs

/-- Python `f"{x*100:.0f}"` percent rendering, modelled as rounding the
exact rational to the nearest integer.  (Python rounds the underlying
binary float half-to-even; the difference can only show at exact ties,
which no claim depends on.) -/
def fmtPct (x : ℚ) : String := intRepr (round (x * 100))

/-- Python `f"{x:.1f}"` one-decimal rendering, same rounding caveat. -/
def fmtFixed1 (x : ℚ) : String :=
  let n : ℤ := round (x * 10)
  let sign := if n < 0 then "-" else ""
  sign ++ natRepr (n.natAbs / 10) ++ "." ++ natRepr (n.natAbs % 10)

/-! ## Branch management -/

/-- `Scratchpad.should_branch`: all four branching conditions, in the
source's early-return order. -/
def Scratchpad.should_branch (s : Scratchpad) : Bool :=
  if s.BRANCH_CONFIDENCE_THRESHOLD ≤ s.current_confidence then false
  else if s.cycle_count < 2 then false
  else if s.MAX_BRANCHES ≤ (s.branches.filter (fun b => b.is_active)).length
    then false
  else if s.sections.branches.content = [] then false
  else true

/-- `Scratchpad.create_branch`: append a branch whose id is
`f"branch-{len(self.branches) + 1}"`.  Python's `parent_id or
self.current_branch_id` falls through to the current branch id when
`parent_id` is `None` or the empty string. -/
def Scratchpad.create_branch (s : Scratchpad) (thesis : String)
    (parent_id : Option String) (now : ℕ) : Scratchpad × ThesisBranch :=
  let branch_num := s.branches.length + 1
  let parent :=
    match parent_id with
    | some p => if p = "" then s.current_branch_id else some p
    | none => s.current_branch_id
  let branch : ThesisBranch :=
    { id := "branch-" ++ natRepr branch_num, thesis := thesis,
      confidence := s.current_confidence, parent_id := parent,
      created_cycle := s.cycle_count, is_active := true }
  ({ s with branches := s.branches ++ [branch], last_updated := now },
   branch)

/-- `Scratchpad.get_active_branches`. -/
def Scratchpad.get_active_branches (s : Scratchpad) : List ThesisBranch :=
  s.branches.filter (fun b => b.is_active)

/-- `Scratchpad.get_branch`: first branch with the given id, if any. -/
def Scratchpad.get_branch (s : Scratchpad) (branch_id : String) :
    Option ThesisBranch :=
  s.branches.find? (fun b => b.id = branch_id)

/-- Mutate the first element satisfying `p` (Python mutates the object
returned by `get_branch`, which is the first match in the list). -/
def updateFirst (p : ThesisBranch → Bool) (f : ThesisBranch → ThesisBranch) :
    List ThesisBranch → List ThesisBranch
  | [] => []
  | b :: bs => if p b then f b :: bs else b :: updateFirst p f bs

/-- `Scratchpad.update_branch_confidence`. -/
def Scratchpad.update_branch_confidence (s : Scratchpad)
    (branch_id : String) (confidence : ℚ) (now : ℕ) : Scratchpad :=
  match s.get_branch branch_id with
  | none => s
  | some _ =>
    { s with
      branches := updateFirst (fun b => b.id = branch_id)
        (fun b => { b with confidence := pyMax 0 (pyMin 1 confidence) })
        s.branches,
      last_updated := now }

/-- `Scratchpad.deactivate_branch`. -/
def Scratchpad.deactivate_branch (s : Scratchpad) (branch_id : String)
    (now : ℕ) : Scratchpad :=
  match s.get_branch branch_id with
  | none => s
  | some _ =>
    { s with
      branches := updateFirst (fun b => b.id = branch_id)
        (fun b => { b with is_active := false }) s.branches,
      last_updated := now }

/-- `Scratchpad.extract_branch_proposals` (a copy of the `branches`
section's items). -/
def Scratchpad.extract_branch_proposals (s : Scratchpad) : List String :=
  s.sections.branches.content

/-- `Scratchpad.clear_branch_proposals`. -/
def Scratchpad.clear_branch_proposals (s : Scratchpad) (now : ℕ) :
    Scratchpad :=
  let old := s.sections.branches
  let sec : Section :=
    { type := old.type, content := [], last_updated := now,
      preserved := old.preserved }
  { s with sections := s.sections.set SectionType.branches sec }

/-! ## Termination check -/

/-- Saturation criterion: both pairwise deltas of the last three values of
`confidence_history + [current_confidence]` are below 0.05 (only evaluated
when at least three values exist). -/
def satCheck (s : Scratchpad) : Option String :=
  match (s.confidence_history ++ [s.current_confidence]).reverse with
  | r2 :: r1 :: r0 :: _ =>
    if pyAbs (r1 - r0) < 1/20 ∧ pyAbs (r2 - r1) < 1/20 then some "confidence_saturated"
    else none
  | _ => none

/-- Diminishing-returns criterion: the newest insight count dropped below
half of the previous one (previous must be positive). -/
def dimCheck (s : Scratchpad) : Option String :=
  match s.insight_counts.reverse with
  | recent :: prev :: _ =>
    if 0 < prev ∧ (recent : ℚ) < (prev : ℚ) * (1/2) then
      some "diminishing_returns"
    else none
  | _ => none

/-- High-confidence-stable criterion. -/
def highCheck (s : Scratchpad) : Option String :=
  if 3/4 ≤ s.current_confidence ∧ s.sections.questions.content.length < 2
  then some "high_confidence_stable"
  else none

/-- `Scratchpad.check_termination`: hard cap, minimum-cycle guard, then
saturation, diminishing returns, and high-confidence-stable, first match
winning. -/
def Scratchpad.check_termination (s : Scratchpad) (max_cycles : ℕ) :
    Option String :=
  if max_cycles ≤ s.cycle_count then
    some ("max_cycles_reached (" ++ natRepr max_cycles ++ ")")
  else if s.cycle_count < 2 then none
  else
    match satCheck s with
    | some r => some r
    | none =>
      match dimCheck s with
      | some r => some r
      | none => highCheck s

/-! ## Rendering -/

/-- Direction marker used in the key-evidence block of `render`. -/
def dirMarker : Direction → String
  | .supports => "+"
  | .challenges => "-"
  | .neutral => "○"

/-- The uppercase header name of a section (`section_type.upper()`). -/
def sectionHeader : SectionType → String
  | .insights => "INSIGHTS"
  | .evidence => "EVIDENCE"
  | .risks => "RISKS"
  | .counters => "COUNTERS"
  | .questions => "QUESTIONS"
  | .patterns => "PATTERNS"
  | .decisions => "DECISIONS"
  | .meta => "META"
  | .claims => "CLAIMS"
  | .branches => "BRANCHES"

/-- One non-empty section's block in `render`. -/
def renderSection (sec : Section) : List String :=
  if sec.content = [] then []
  else
    ["## " ++ sectionHeader sec.type ++ "\n" ++
       joinWith "\n" (sec.content.map (fun c => "• " ++ c)) ++ "\n"]

/-- `Scratchpad.render`: header, trajectory, key-evidence block (always in
full), active branches, then every non-empty section. -/
def Scratchpad.render (s : Scratchpad) : String :=
  let header :=
    ["# Analysis Scratchpad: " ++ s.title,
     "Cycle: " ++ natRepr s.cycle_count ++ " | Confidence: " ++
       fmtPct s.current_confidence ++ "%"]
  let trajectory :=
    if s.confidence_history = [] then []
    else
      ["Trajectory: " ++
        joinWith " → "
          ((s.confidence_history ++ [s.current_confidence]).map
            (fun c => fmtPct c ++ "%"))]
  let supporting := s.key_evidence.filter (fun e => e.direction = .supports)
  let challenging := s.key_evidence.filter (fun e => e.direction = .challenges)
  let evidenceBlock :=
    if s.key_evidence = [] then []
    else
      "## KEY EVIDENCE (Preserved)" ::
        s.key_evidence.map
          (fun e => "• [" ++ dirMarker e.direction ++ "][" ++ e.source ++
            "][" ++ fmtFixed1 e.strength ++ "] " ++ e.content) ++
        ["  Balance: " ++ natRepr supporting.length ++ " supporting vs " ++
           natRepr challenging.length ++ " challenging", ""]
  let actives := s.get_active_branches
  let branchBlock :=
    if actives = [] then []
    else
      "## ACTIVE BRANCHES" ::
        actives.map
          (fun b =>
            (if s.current_branch_id = some b.id then "→ " else "  ") ++
              "[" ++ b.id ++ "] (" ++ fmtPct b.confidence ++ "%) " ++
              b.thesis.take 80 ++ "...") ++
        [""]
  let sectionBlocks := (s.sections.toList.map renderSection).flatten
  joinWith "\n"
    (header ++ trajectory ++ [""] ++ evidenceBlock ++ branchBlock ++
      sectionBlocks)

/-! ## Serialization (`to_dict` / `from_dict`)

The nested `to_dict`/`from_dict` pairs of `KeyEvidence`, `ThesisBranch`,
`Section` and `ConfidenceModel` write and read exactly the fields of their
dataclasses, so their dictionary forms are modelled by the structures
themselves.  `Scratchpad.to_dict` writes the thirteen keys below — and
only those: the dataclass fields `BRANCH_CONFIDENCE_THRESHOLD` and
`MAX_BRANCHES` are not serialized, and `from_dict` reconstructs them at
their default values. -/

/-- The dictionary produced by `Scratchpad.to_dict`. -/
structure ScratchpadDict where
  session_id : String
  title : String
  sections : Sections
  key_evidence : List KeyEvidence
  insight_counts : List ℕ
  branches : List ThesisBranch
  current_branch_id : Option String
  confidence_history : List ℚ
  current_confidence : ℚ
  confidence_model : ConfidenceModel
  cycle_count : ℕ
  created : ℕ
  last_updated : ℕ
deriving DecidableEq, Repr

/-- `Scratchpad.to_dict`. -/
def Scratchpad.to_dict (s : Scratchpad) : ScratchpadDict :=
  { session_id := s.session_id, title := s.title, sections := s.sections,
    key_evidence := s.key_evidence, insight_counts := s.insight_counts,
    branches := s.branches, current_branch_id := s.current_branch_id,
    confidence_history := s.confidence_history,
    current_confidence := s.current_confidence,
    confidence_model := s.confidence_model, cycle_count := s.cycle_count,
    created := s.created, last_updated := s.last_updated }

/-- `Scratchpad.from_dict`: rebuilds every serialized field; the
non-serialized dataclass fields `BRANCH_CONFIDENCE_THRESHOLD` and
`MAX_BRANCHES` come out at their defaults `0.4` and `3`. -/
def Scratchpad.from_dict (d : ScratchpadDict) : Scratchpad :=
  { session_id := d.session_id, title := d.title, sections := d.sections,
    confidence_history := d.confidence_history,
    current_confidence := d.current_confidence,
    cycle_count := d.cycle_count, created := d.created,
    last_updated := d.last_updated,
    confidence_model := d.confidence_model,
    key_evidence := d.key_evidence, insight_counts := d.insight_counts,
    branches := d.branches, current_branch_id := d.current_branch_id,
    BRANCH_CONFIDENCE_THRESHOLD := 2/5, MAX_BRANCHES := 3 }

/-! ## Harness (`harness_lite.py`) -/

/-- `\s` whitespace class (ASCII subset; Python's additional Unicode
whitespace never occurs in the texts the claims concern). -/
def isSpaceChar (c : Char) : Bool :=
  c = ' ' ∨ c = '\t' ∨ c = '\n' ∨ c = '\r' ∨ c = '\x0b' ∨ c = '\x0c'

/-- Digit run to a natural number. -/
def digitsToNat (ds : List Char) : ℕ :=
  ds.foldl (fun a c => a * 10 + (c.toNat - 48)) 0

/-- Attempt to match `\s*(0\.\d+)` at the head of `s`, returning the
declared value as an exact rational. -/
def parseScoreAt (s : List Char) : Option ℚ :=
  match s.dropWhile isSpaceChar with
  | '0' :: '.' :: rest =>
    let ds := rest.takeWhile Char.isDigit
    if ds = [] then none
    else some ((digitsToNat ds : ℚ) / (10 ^ ds.length : ℕ))
  | _ => none

/-- `re.search(label + r'\s*(0\.\d+)', s)`: the first position where the
label is followed by a parsable score. -/
def searchScore (label : List Char) : List Char → Option ℚ
  | [] => none
  | c :: rest =>
    if label.isPrefixOf (c :: rest) then
      match parseScoreAt ((c :: rest).drop label.length) with
      | some q => some q
      | none => searchScore label rest
    else searchScore label rest

/-- `re.search(r'NAME:\s*(0\.\d+)', content)` for a numeric confidence
declaration. -/
def extractScore (label : String) (content : String) : Option ℚ :=
  searchScore (label.data ++ [':']) content.data

/-- The confidence-update tail of `MultiPassHarnessLite._run_critique`
(after `extract_and_merge`): if all three of `REASONING_QUALITY`,
`EVIDENCE_QUALITY` and `CONCLUSION_CONFIDENCE` are declared, assign the
first two directly into the model and then run
`update_confidence_from_critique`; otherwise fall back to the legacy
single `CONFIDENCE` declaration and `update_confidence`; otherwise leave
the scratchpad unchanged. -/
def runCritiqueConfidenceUpdate (s : Scratchpad) (content : String)
    (now : ℕ) : Scratchpad :=
  match extractScore "REASONING_QUALITY" content,
        extractScore "EVIDENCE_QUALITY" content,
        extractScore "CONCLUSION_CONFIDENCE" content with
  | some r, some e, some c =>
    let s' :=
      { s with confidence_model :=
          { s.confidence_model with reasoning_quality := r,
                                    evidence_quality := e } }
    s'.update_confidence_from_critique content c now
  | _, _, _ =>
    match extractScore "CONFIDENCE" content with
    | some v => s.update_confidence v now
    | none => s

/-- `_run_critique` as far as the scratchpad is concerned: harvest
semantic markers, then apply the confidence update.  Returns the new
scratchpad together with `insights_found` and `major_flaws_found`. -/
def majorFlawsFound (content : String) : ℕ :=
  countTagCI "TOO_GRANULAR" content * 2 +
    countTagCI "TENSION_MISSING" content * 2 +
    countTagCI "TENSION_WRONG" content +
    countTagCI "REFRAME" content +
    countTagCI "ELEVATE" content

/-- One critique pass over the scratchpad. -/
def runCritique (s : Scratchpad) (content : String) (now : ℕ) :
    Scratchpad × ℕ × ℕ :=
  let extracted := s.extract_and_merge content now
  (runCritiqueConfidenceUpdate extracted.2 content now,
   extracted.1, majorFlawsFound content)

/-- The pass types the cycle controller can append within one main
cycle. -/
inductive PassType
  | expansion | compression | critique | targetedExpansion
deriving DecidableEq, Repr

/-- The sequence of passes the cycle controller runs in one main cycle,
as a function of the critique output: expansion, compression, critique,
and — exactly when `major_flaws_found ≥ 3` and the cycle index is below
`max_cycles` — a targeted re-expansion followed by a second compression,
with no second critique. -/
def cyclePassTypes (critiqueContent : String) (cycle max_cycles : ℕ) :
    List PassType :=
  [PassType.expansion, PassType.compression, PassType.critique] ++
    (if 3 ≤ majorFlawsFound critiqueContent ∧ cycle < max_cycles then
       [PassType.targetedExpansion, PassType.compression]
     else [])

/-- The branching block of `MultiPassHarnessLite.run`: when
`should_branch()` holds, create one branch per queued proposal up to the
remaining active-branch capacity and clear the proposals; otherwise do
nothing.  Returns the updated scratchpad and the created branches. -/
def branchPhase (s : Scratchpad) (now : ℕ) :
    Scratchpad × List ThesisBranch :=
  if s.should_branch then
    let capacity := s.MAX_BRANCHES - s.get_active_branches.length
    let created := (s.extract_branch_proposals.take capacity).foldl
      (fun (acc : Scratchpad × List ThesisBranch) proposal =>
        let nb := acc.1.create_branch proposal none now
        (nb.1, acc.2 ++ [nb.2]))
      (s, [])
    (created.1.clear_branch_proposals now, created.2)
  else (s, [])

/-! ## Claim-side and scenario definitions -/

/-- The operations quantified over in claim C1: `extract_and_merge` and
`_compress`, in any order. -/
inductive EMCOp
  | extract (text : String) (now : ℕ)
  | compressOp

/-- Run one C1 operation. -/
def applyEMC (s : Scratchpad) : EMCOp → Scratchpad
  | .extract text now => (s.extract_and_merge text now).2
  | .compressOp => s.compressPad

/-- The quality-score update rule exactly as the claim states it, as a
function of this cycle's marker count `n`. -/
def claimQualityUpdate (n : ℕ) (old : ℚ) : ℚ :=
  if n = 0 then pyMin 1 (old + 1/10)
  else if n ≤ 2 then pyMax (1/2) (9/10 - (n : ℚ) * (15/100))
  else pyMax (3/10) (9/10 - (n : ℚ) * (15/100))

/-- Number of fallacy markers in a critique text, mode-filtered:
`[HINDSIGHT]` and `[SURVIVORSHIP]` count only in `forward` mode. -/
def fallacyMarkerCount (mode : AnalysisMode) (text : String) : ℕ :=
  (ALWAYS_FALLACY_TAGS.map (fun t => countTag t text)).sum +
    (if mode = .forward then
       (FORWARD_ONLY_FALLACY_TAGS.map (fun t => countTag t text)).sum
     else 0)

/-- Number of evidence-quality markers in a critique text. -/
def gapMarkerCount (text : String) : ℕ :=
  (EVIDENCE_QUALITY_TAGS.map (fun t => countTag t text)).sum

/-- The last three values of a list, if it has at least three. -/
def lastThree (l : List ℚ) : Option (ℚ × ℚ × ℚ) :=
  match l.reverse with
  | c :: b :: a :: _ => some (a, b, c)
  | _ => none

/-- The claim's saturation criterion: the last three confidence values
(history plus current) exist and both pairwise deltas are `< 0.05`. -/
def claimSaturated (s : Scratchpad) : Bool :=
  match lastThree (s.confidence_history ++ [s.current_confidence]) with
  | some (a, b, c) =>
    decide (pyAbs (b - a) < 1/20) && decide (pyAbs (c - b) < 1/20)
  | none => false

/-- The claim's diminishing-returns criterion:
`insight_counts[-2] > 0` and `insight_counts[-1] < 0.5·insight_counts[-2]`. -/
def claimDiminishing (s : Scratchpad) : Bool :=
  match s.insight_counts.reverse with
  | recent :: prev :: _ =>
    decide (0 < prev) && decide ((recent : ℚ) < (1/2) * (prev : ℚ))
  | _ => false

/-- The claim's high-confidence-stable criterion. -/
def claimHighStable (s : Scratchpad) : Bool :=
  decide ((3/4 : ℚ) ≤ s.current_confidence) &&
    decide (s.sections.questions.content.length < 2)

/-- The termination rule exactly as the (amended) claim enumerates it:
first match wins, in the order hard cap, minimum-cycle guard, saturation,
diminishing returns, high-confidence stable. -/
def claimTermination (s : Scratchpad) (max_cycles : ℕ) : Option String :=
  if s.cycle_count ≥ max_cycles then
    some ("max_cycles_reached (" ++ natRepr max_cycles ++ ")")
  else if s.cycle_count < 2 then none
  else if claimSaturated s then some "confidence_saturated"
  else if claimDiminishing s then some "diminishing_returns"
  else if claimHighStable s then some "high_confidence_stable"
  else none

/-- Scripted cycle-1 critique of scenario S1: one `[CONFIRMATION]`, one
`[UNVERIFIED]`, and the declared triple `0.6 / 0.6 / 0.55`. -/
def c5text1 : String :=
  "[CONFIRMATION] cherry-picked the supporting cases\n" ++
    "[UNVERIFIED] churn figure has no source\n" ++
    "REASONING_QUALITY: 0.6\nEVIDENCE_QUALITY: 0.6\n" ++
    "CONCLUSION_CONFIDENCE: 0.55"

/-- Scripted cycle-2 critique of scenario S1: no fallacy or evidence
markers, declared triple `0.9 / 0.9 / 0.75`. -/
def c5text2 : String :=
  "No fallacy or evidence issues found this pass.\n" ++
    "REASONING_QUALITY: 0.9\nEVIDENCE_QUALITY: 0.9\n" ++
    "CONCLUSION_CONFIDENCE: 0.75"

/-- Scenario S1 start: fresh retrospective scratchpad. -/
def c5sp0 : Scratchpad := Scratchpad.new "s1" "Recovery" 0

/-- State after the first scripted critique. -/
def c5sp1 : Scratchpad := (runCritique c5sp0 c5text1 1).1

/-- State after the second scripted critique. -/
def c5sp2 : Scratchpad := (runCritique c5sp1 c5text2 2).1

/-- Every scratchpad mutator, for quantifying over whole operation
sequences in claim C9. -/
inductive Op
  | extract (text : String) (now : ℕ)
  | compressOp
  | addClaim (claim_id text claim_type snippet : String) (now : ℕ)
  | addKeyEv (content source : String) (strength : ℚ) (dir : Direction)
      (ts : String) (now : ℕ)
  | updateConf (v : ℚ) (now : ℕ)
  | updateConfCritique (text : String) (cc : ℚ) (now : ℕ)
  | incCycle (now : ℕ)
  | recordInsights (n now : ℕ)
  | createBranch (thesis : String) (parent : Option String) (now : ℕ)
  | updateBranchConf (bid : String) (v : ℚ) (now : ℕ)
  | deactivateBranch (bid : String) (now : ℕ)
  | clearProposals (now : ℕ)
  | critiquePass (content : String) (now : ℕ)

/-- Run one scratchpad operation. -/
def applyOp (s : Scratchpad) : Op → Scratchpad
  | .extract text now => (s.extract_and_merge text now).2
  | .compressOp => s.compressPad
  | .addClaim a b c d now => s.add_claim a b c d now
  | .addKeyEv c src st dir ts now => s.add_key_evidence c src st dir ts now
  | .updateConf v now => s.update_confidence v now
  | .updateConfCritique t cc now => s.update_confidence_from_critique t cc now
  | .incCycle now => s.increment_cycle now
  | .recordInsights n now => s.record_cycle_insights n now
  | .createBranch th p now => (s.create_branch th p now).1
  | .updateBranchConf bid v now => s.update_branch_confidence bid v now
  | .deactivateBranch bid now => s.deactivate_branch bid now
  | .clearProposals now => s.clear_branch_proposals now
  | .critiquePass content now => (runCritique s content now).1

/-- The ids of a scratchpad's branches, in list order. -/
def branchIds (s : Scratchpad) : List String :=
  s.branches.map (fun b => b.id)

/-- The ids `branch-1, …, branch-n`. -/
def canonicalBranchIds (n : ℕ) : List String :=
  (List.range n).map (fun i => "branch-" ++ natRepr (i + 1))

/-- C9 invariant: the i-th branch (0-based) carries id `branch-(i+1)`. -/
def branchIdsOk (s : Scratchpad) : Prop :=
  branchIds s = canonicalBranchIds s.branches.length

/-- The content lists of the ten sections, in order. -/
def sectionContents (s : Scratchpad) : List (List String) :=
  s.sections.toList.map (fun sec => sec.content)

/-- `s` with everything except the sections replaced: same sections, but
arbitrary key evidence, branches, title and confidence state. -/
def withOtherState (s : Scratchpad) (ke : List KeyEvidence)
    (br : List ThesisBranch) (t : String) (ch : List ℚ) (cc : ℚ) :
    Scratchpad :=
  { s with key_evidence := ke, branches := br, title := t,
           confidence_history := ch, current_confidence := cc }

/-- `k` successive `add_key_evidence` calls with pairwise-distinct
contents, starting from a fresh scratchpad. -/
def addEvidenceMany (k : ℕ) : Scratchpad :=
  (List.range k).foldl
    (fun acc i =>
      acc.add_key_evidence ("E" ++ natRepr (i + 1)) "src" (7/10)
        .supports "ts" 0)
    (Scratchpad.new "s" "t" 0)

/-! # Theorems -/

lemma pyMin_eq_min (a b : ℚ) : pyMin a b = min a b := (min_def a b).symm

lemma pyMax_eq_max (a b : ℚ) : pyMax a b = max a b := (max_def a b).symm

lemma pyAbs_eq_abs (x : ℚ) : pyAbs x = |x| := by
  unfold pyAbs
  rcases lt_or_ge x 0 with h | h
  · rw [if_pos h, abs_of_neg h]
  · rw [if_neg (not_lt.mpr h), abs_of_nonneg h]

/-! ## C1 — key-evidence anchors survive extraction and compression -/

lemma compressPad_key_evidence (s : Scratchpad) :
    s.compressPad.key_evidence = s.key_evidence := by
  unfold Scratchpad.compressPad
  dsimp only
  split <;> rfl

lemma extract_and_merge_key_evidence (s : Scratchpad) (t : String)
    (now : ℕ) : (s.extract_and_merge t now).2.key_evidence = s.key_evidence := by
  unfold Scratchpad.extract_and_merge
  dsimp only
  split
  · exact compressPad_key_evidence _
  · rfl

/-- C1: for every scratchpad and every sequence of `extract_and_merge` and
`_compress` calls, the `key_evidence` list afterwards is exactly (same
items, same order, byte-identical) the list before; and `add_key_evidence`
is the only mutation, appending a single anchor exactly when its content is
new. -/
theorem key_evidence_anchors_preserved (s : Scratchpad) (ops : List EMCOp)
    (content source : String) (strength : ℚ) (dir : Direction)
    (ts : String) (now : ℕ) :
    (ops.foldl applyEMC s).key_evidence = s.key_evidence ∧
    (s.add_key_evidence content source strength dir ts now).key_evidence =
      (if s.key_evidence.any (fun e => e.content == content)
       then s.key_evidence
       else s.key_evidence ++
         [{ content := content, source := source, strength := strength,
            direction := dir, timestamp := ts }]) := by
  constructor
  · induction ops generalizing s with
    | nil => rfl
    | cons op rest ih =>
      rw [List.foldl_cons, ih]
      cases op with
      | extract t n => exact extract_and_merge_key_evidence s t n
      | compressOp => exact compressPad_key_evidence s
  · unfold Scratchpad.add_key_evidence
    split <;> rfl

/-! ## C2 — composite-confidence invariant (corrected)

The invariant `current_confidence = composite` fails on the legacy
`update_confidence` path: that path stores the clamped input directly and
mirrors it only into `conclusion_confidence`, so the composite is
`(reasoning_quality + evidence_quality + clamped) / 3`, which differs from
the stored value whenever the two quality scores do not also equal it. -/

/-- C2 counterexample: starting from a fresh scratchpad, one legacy
`update_confidence(0.5)` call leaves `current_confidence = 0.5` while the
composite is `5/6`; the gap is `1/3`, far beyond floating-point
tolerance. -/
theorem legacy_update_confidence_breaks_composite :
    ((Scratchpad.new "s" "t" 0).update_confidence (1/2) 1).current_confidence ≠
      ((Scratchpad.new "s" "t" 0).update_confidence (1/2) 1).confidence_model.composite_confidence ∧
    (1/4 : ℚ) ≤
      |((Scratchpad.new "s" "t" 0).update_confidence (1/2) 1).current_confidence -
        ((Scratchpad.new "s" "t" 0).update_confidence (1/2) 1).confidence_model.composite_confidence| := by
  constructor
  · decide
  · decide

/-- C2 amended: after every `update_confidence_from_critique`,
`current_confidence` equals the composite of the three model scores
exactly, and each of the two update paths appends exactly one entry (the
previous `current_confidence`) to `confidence_history` — so the history
length equals the number of updates applied.  The legacy
`update_confidence` path instead stores the clamped input directly. -/
theorem composite_invariant_amended (s : Scratchpad) (text : String)
    (cc v : ℚ) (now : ℕ) :
    (s.update_confidence_from_critique text cc now).current_confidence =
      (s.update_confidence_from_critique text cc now).confidence_model.composite_confidence ∧
    (s.update_confidence_from_critique text cc now).confidence_history =
      s.confidence_history ++ [s.current_confidence] ∧
    (s.update_confidence v now).confidence_history =
      s.confidence_history ++ [s.current_confidence] ∧
    (s.update_confidence v now).current_confidence = max 0 (min 1 v) := by
  refine ⟨rfl, rfl, rfl, ?_⟩
  show pyMax 0 (pyMin 1 v) = max 0 (min 1 v)
  rw [pyMin_eq_min, pyMax_eq_max]

/-! ## C3 — the critique-driven quality-score update rule -/

lemma issuesFor_length (tag text : String) :
    (issuesFor tag text).length = countTag tag text := by
  simp [issuesFor, countTag]

lemma issuesForAll_length (tags : List String) (text : String) :
    (issuesForAll tags text).length =
      (tags.map (fun t => countTag t text)).sum := by
  induction tags with
  | nil => rfl
  | cons t rest ih =>
    simp only [issuesForAll, List.map_cons, List.flatten_cons,
      List.length_append, List.sum_cons] at *
    rw [issuesFor_length, ih]

lemma cycleFallacies_length (mode : AnalysisMode) (text : String) :
    (issuesForAll ALWAYS_FALLACY_TAGS text ++
      (if mode = AnalysisMode.forward then
         issuesForAll FORWARD_ONLY_FALLACY_TAGS text
       else [])).length = fallacyMarkerCount mode text := by
  cases mode <;>
    simp [fallacyMarkerCount, issuesForAll_length, List.length_append]

/-- C3: `update_from_critique` updates `reasoning_quality` by the claim's
three-case rule applied to the mode-filtered fallacy-marker count (recovery
`min(1, old + 0.1)` at zero markers, `max(0.5, 0.9 − 0.15·n)` for `n ≤ 2`,
`max(0.3, 0.9 − 0.15·n)` for `n ≥ 3`), and symmetrically updates
`evidence_quality` from the five evidence-quality markers;
`[HINDSIGHT]`/`[SURVIVORSHIP]` count as fallacies exactly in forward mode,
and in retrospective mode are dedup-appended to `retrospective_insights`
instead. -/
theorem update_from_critique_matches_claim (m : ConfidenceModel)
    (text : String) :
    ((m.update_from_critique text).reasoning_quality =
      claimQualityUpdate (fallacyMarkerCount m.analysis_mode text)
        m.reasoning_quality) ∧
    ((m.update_from_critique text).evidence_quality =
      claimQualityUpdate (gapMarkerCount text) m.evidence_quality) ∧
    (fallacyMarkerCount .retrospective text =
      countTag "FALSE_DICHOTOMY" text + countTag "SUNK_COST" text +
        countTag "CONFIRMATION" text + countTag "PLANNING_FALLACY" text +
        countTag "CIRCULAR" text + countTag "AUTHORITY" text) ∧
    (fallacyMarkerCount .forward text =
      fallacyMarkerCount .retrospective text +
        (countTag "SURVIVORSHIP" text + countTag "HINDSIGHT" text)) ∧
    (gapMarkerCount text =
      countTag "UNVERIFIED" text + countTag "INCOMPLETE" text +
        countTag "CONTRADICTED" text + countTag "UNSTABLE" text +
        countTag "DATED" text) ∧
    ((({ m with analysis_mode := .retrospective } : ConfidenceModel).update_from_critique
        text).retrospective_insights =
      dedupAppend m.retrospective_insights
        (issuesForAll FORWARD_ONLY_FALLACY_TAGS text)) ∧
    ((({ m with analysis_mode := .forward } : ConfidenceModel).update_from_critique
        text).retrospective_insights = m.retrospective_insights) := by
  refine ⟨?_, ?_, ?_, ?_, ?_, ?_, ?_⟩
  · show claimQualityUpdate
      ((issuesForAll ALWAYS_FALLACY_TAGS text ++
        (if m.analysis_mode = AnalysisMode.forward then
           issuesForAll FORWARD_ONLY_FALLACY_TAGS text
         else [])).length) m.reasoning_quality =
      claimQualityUpdate (fallacyMarkerCount m.analysis_mode text)
        m.reasoning_quality
    rw [cycleFallacies_length]
  · show claimQualityUpdate ((issuesForAll EVIDENCE_QUALITY_TAGS text).length)
      m.evidence_quality =
      claimQualityUpdate (gapMarkerCount text) m.evidence_quality
    rw [issuesForAll_length]
    rfl
  · simp [fallacyMarkerCount, ALWAYS_FALLACY_TAGS, Nat.add_assoc]
  · cases h : fallacyMarkerCount AnalysisMode.retrospective text <;>
      simp_all [fallacyMarkerCount, FORWARD_ONLY_FALLACY_TAGS]
  · simp [gapMarkerCount, EVIDENCE_QUALITY_TAGS, Nat.add_assoc]
  · rfl
  · rfl

/-! ## C4 — the termination check (corrected: the hard-cap reason string
carries the numeric limit, e.g. `"max_cycles_reached (5)"`, not the bare
`"max_cycles_reached"`) -/

lemma satCheck_eq (s : Scratchpad) :
    satCheck s =
      if claimSaturated s then some "confidence_saturated" else none := by
  unfold satCheck claimSaturated lastThree
  rcases (s.confidence_history ++ [s.current_confidence]).reverse with
    _ | ⟨r2, _ | ⟨r1, _ | ⟨r0, rest⟩⟩⟩ <;>
    simp [Bool.and_eq_true, decide_eq_true_eq]

lemma dimCheck_eq (s : Scratchpad) :
    dimCheck s =
      if claimDiminishing s then some "diminishing_returns" else none := by
  unfold dimCheck claimDiminishing
  rcases s.insight_counts.reverse with _ | ⟨recent, _ | ⟨prev, rest⟩⟩ <;>
    simp [Bool.and_eq_true, decide_eq_true_eq, mul_comm]

lemma highCheck_eq (s : Scratchpad) :
    highCheck s =
      if claimHighStable s then some "high_confidence_stable" else none := by
  unfold highCheck claimHighStable
  simp [Bool.and_eq_true, decide_eq_true_eq]

/-- C4 counterexample: with `cycle_count = max_cycles = 5` the code
returns `"max_cycles_reached (5)"`, not the claim's exact string
`"max_cycles_reached"`. -/
theorem check_termination_reason_string_counterexample :
    ({ Scratchpad.new "s" "t" 0 with cycle_count := 5 } : Scratchpad).check_termination 5 =
      some "max_cycles_reached (5)" ∧
    ({ Scratchpad.new "s" "t" 0 with cycle_count := 5 } : Scratchpad).check_termination 5 ≠
      some "max_cycles_reached" := by
  constructor <;> decide

/-- C4 amended: `check_termination` evaluates its five criteria in exactly
the claimed order with the first match winning and returns exactly the
claimed reason strings — except that the hard-cap reason is
`"max_cycles_reached (N)"` with the numeric limit interpolated. -/
theorem check_termination_matches_claim (s : Scratchpad) (max_cycles : ℕ) :
    s.check_termination max_cycles = claimTermination s max_cycles := by
  unfold Scratchpad.check_termination claimTermination
  rw [satCheck_eq, dimCheck_eq, highCheck_eq]
  by_cases h1 : max_cycles ≤ s.cycle_count <;>
    by_cases h2 : s.cycle_count < 2 <;>
    by_cases hs : claimSaturated s = true <;>
    by_cases hd : claimDiminishing s = true <;>
    simp [h1, h2, hs, hd, ge_iff_le]

/-! ## C5 — the S1 recovery scenario (corrected)

The scenario's two scripted critiques, run through `_run_critique`'s
confidence update.  The explicit `REASONING_QUALITY`/`EVIDENCE_QUALITY`
assignments made by the harness are immediately overwritten inside
`update_from_critique` (its three-case rule recomputes both scores from
this cycle's marker counts), so the first critique — which carries one
fallacy marker and one evidence marker — lands the scores at
`max(0.5, 0.9 − 0.15) = 0.75`, not at the declared `0.6`; the second,
marker-free critique recovers from the declared `0.9` to `1.0`, not from
`0.6` to `0.7`, and the final composite is `11/12 ≈ 0.92`, not `≈ 0.78`. -/

/-- C5 counterexample: on the scripted recovery scenario the code's
`reasoning_quality` path is `1.0 → 0.75 → 1.0`, not the claimed
`1.0 → 0.6 → 0.7`, and the final composite is `11/12`, which misses the
claimed `≈ 0.78` by far more than floating-point tolerance. -/
theorem recovery_scenario_counterexample :
    c5sp1.confidence_model.reasoning_quality ≠ 3/5 ∧
    c5sp2.confidence_model.reasoning_quality ≠ 7/10 ∧
    ¬ pyAbs (c5sp2.current_confidence - 78/100) < 1/20 := by
  refine ⟨?_, ?_, ?_⟩ <;> decide

/-- C5 amended: the scripted scenario yields the `reasoning_quality` path
`1.0 → 0.75 → 1.0` (the marker-derived update overwrites the critique's
explicit `0.6`, and recovery adds `+0.1` to the explicit `0.9` of the
clean second pass), with final composite exactly `11/12 ≈ 0.92`. -/
theorem recovery_scenario_actual_path :
    c5sp0.confidence_model.reasoning_quality = 1 ∧
    c5sp1.confidence_model.reasoning_quality = 3/4 ∧
    c5sp1.confidence_model.evidence_quality = 3/4 ∧
    c5sp1.confidence_model.conclusion_confidence = 11/20 ∧
    c5sp1.current_confidence = 41/60 ∧
    c5sp2.confidence_model.reasoning_quality = 1 ∧
    c5sp2.confidence_model.evidence_quality = 1 ∧
    c5sp2.confidence_model.conclusion_confidence = 3/4 ∧
    c5sp2.current_confidence = 11/12 := by
  refine ⟨rfl, ?_, ?_, ?_, ?_, ?_, ?_, ?_, ?_⟩ <;> decide

/-! ## C6 — the four-way branching trigger -/

/-- C6: `should_branch` holds exactly when all four conditions do —
composite confidence strictly below the threshold, at least two cycles,
strictly fewer active branches than `MAX_BRANCHES`, and at least one
extracted `[BRANCH]` proposal — and the cycle controller's branching block
leaves the scratchpad untouched and creates no branch whenever
`should_branch` is false. -/
theorem should_branch_iff (s : Scratchpad) (now : ℕ) :
    (s.should_branch = true ↔
      (s.current_confidence < s.BRANCH_CONFIDENCE_THRESHOLD ∧
        2 ≤ s.cycle_count ∧
        (s.branches.filter (fun b => b.is_active)).length < s.MAX_BRANCHES ∧
        s.sections.branches.content ≠ [])) ∧
    (s.should_branch = false → branchPhase s now = (s, [])) := by
  constructor
  · unfold Scratchpad.should_branch
    by_cases h1 : s.BRANCH_CONFIDENCE_THRESHOLD ≤ s.current_confidence <;>
      by_cases h2 : s.cycle_count < 2 <;>
      by_cases h3 : s.MAX_BRANCHES ≤
        (s.branches.filter (fun b => b.is_active)).length <;>
      by_cases h4 : s.sections.branches.content = [] <;>
      simp_all [not_le, not_lt]
  · intro h
    unfold branchPhase
    rw [h]
    simp

/-- C6 witness: a fresh scratchpad (confidence 0.5 ≥ threshold 0.4) does
not branch, and the controller's branching block does nothing on it. -/
theorem should_branch_iff_witness :
    (Scratchpad.new "s" "t" 0).should_branch = false ∧
    branchPhase (Scratchpad.new "s" "t" 0) 1 = (Scratchpad.new "s" "t" 0, []) := by
  have h : (Scratchpad.new "s" "t" 0).should_branch = false := by decide
  exact ⟨h, (should_branch_iff (Scratchpad.new "s" "t" 0) 1).2 h⟩

/-! ## C7 — `major_flaws_found` and the re-expansion trigger -/

/-- C7: `major_flaws_found` weights the five dialectical markers exactly
as claimed (counted case-insensitively), and the cycle controller runs a
targeted re-expansion followed by a second compression — and never a
second critique — exactly when the score reaches 3 and the cycle is
strictly below `max_cycles`. -/
theorem major_flaws_and_reexpansion (content : String)
    (cycle max_cycles : ℕ) :
    (majorFlawsFound content =
      2 * countTagCI "TOO_GRANULAR" content +
        2 * countTagCI "TENSION_MISSING" content +
        countTagCI "TENSION_WRONG" content +
        countTagCI "REFRAME" content + countTagCI "ELEVATE" content) ∧
    ((cyclePassTypes content cycle max_cycles).count PassType.critique = 1) ∧
    ((cyclePassTypes content cycle max_cycles).count
        PassType.targetedExpansion =
      if 3 ≤ majorFlawsFound content ∧ cycle < max_cycles then 1 else 0) ∧
    ((cyclePassTypes content cycle max_cycles).count PassType.compression =
      if 3 ≤ majorFlawsFound content ∧ cycle < max_cycles then 2 else 1) := by
  refine ⟨?_, ?_, ?_, ?_⟩
  · unfold majorFlawsFound
    ring
  · unfold cyclePassTypes
    split <;> rfl
  · unfold cyclePassTypes
    split <;> simp_all
  · unfold cyclePassTypes
    split <;> simp_all

/-! ## C8 — serialization round-trip (corrected)

`to_dict` serializes the thirteen state keys but omits the two dataclass
fields `BRANCH_CONFIDENCE_THRESHOLD` and `MAX_BRANCHES`, which participate
in dataclass equality; `from_dict` reconstructs them at their defaults, so
the round-trip is the identity exactly on scratchpads carrying the default
threshold values. -/

/-- C8 counterexample: a scratchpad with a non-default `MAX_BRANCHES`
does not survive `from_dict(to_dict(S))` unchanged. -/
theorem serialization_roundtrip_counterexample :
    Scratchpad.from_dict
        (({ Scratchpad.new "s" "t" 0 with MAX_BRANCHES := 5 } : Scratchpad).to_dict) ≠
      ({ Scratchpad.new "s" "t" 0 with MAX_BRANCHES := 5 } : Scratchpad) := by
  decide

/-- C8 amended: for every scratchpad whose `BRANCH_CONFIDENCE_THRESHOLD`
and `MAX_BRANCHES` sit at their defaults (0.4 and 3 — as for every
scratchpad the harness itself builds), `from_dict(to_dict(S)) = S`:
all sections with their content, preserved flags and timestamps,
`key_evidence`, `insight_counts`, `branches`, `current_branch_id`,
`confidence_history`, `current_confidence`, `cycle_count` and the full
`confidence_model` round-trip exactly. -/
theorem serialization_roundtrip_amended (s : Scratchpad)
    (h1 : s.BRANCH_CONFIDENCE_THRESHOLD = 2/5) (h2 : s.MAX_BRANCHES = 3) :
    Scratchpad.from_dict s.to_dict = s := by
  cases s
  subst h1
  subst h2
  rfl

/-- C8 witness: a concrete default-threshold scratchpad round-trips. -/
theorem serialization_roundtrip_amended_witness :
    Scratchpad.from_dict (Scratchpad.new "a" "b" 0).to_dict =
      Scratchpad.new "a" "b" 0 :=
  serialization_roundtrip_amended (Scratchpad.new "a" "b" 0) rfl rfl

/-! ## C9 — branch ids are `branch-N` and pairwise distinct -/

lemma toDigitsRev_eq_digits :
    ∀ fuel n : ℕ, n ≤ fuel → toDigitsRev fuel n = Nat.digits 10 n := by
  intro fuel
  induction fuel with
  | zero =>
    intro n hn
    obtain rfl : n = 0 := Nat.le_zero.mp hn
    simp [toDigitsRev]
  | succ f ih =>
    intro n hn
    by_cases h0 : n = 0
    · subst h0; simp [toDigitsRev]
    · have hpos : 0 < n := Nat.pos_of_ne_zero h0
      rw [Nat.digits_def' (by norm_num : 1 < 10) hpos]
      show (if n = 0 then [] else n % 10 :: toDigitsRev f (n / 10)) = _
      rw [if_neg h0, ih (n / 10) (by omega)]

lemma digitChar_toNat : ∀ d < 10, (digitChar d).toNat = 48 + d := by
  intro d hd
  interval_cases d <;> rfl

lemma digitChar_inj (d1 d2 : ℕ) (h1 : d1 < 10) (h2 : d2 < 10)
    (h : digitChar d1 = digitChar d2) : d1 = d2 := by
  have hn := congrArg Char.toNat h
  rw [digitChar_toNat d1 h1, digitChar_toNat d2 h2] at hn
  omega

lemma map_digitChar_inj :
    ∀ l1 l2 : List ℕ, (∀ d ∈ l1, d < 10) → (∀ d ∈ l2, d < 10) →
      l1.map digitChar = l2.map digitChar → l1 = l2 := by
  intro l1
  induction l1 with
  | nil =>
    intro l2 _ _ h
    cases l2 with
    | nil => rfl
    | cons d t => simp at h
  | cons d t ih =>
    intro l2 h1 h2 h
    cases l2 with
    | nil => simp at h
    | cons d2 t2 =>
      simp only [List.map_cons, List.cons.injEq] at h
      have hd := digitChar_inj d d2 (h1 d (by simp)) (h2 d2 (by simp)) h.1
      have ht := ih t2 (fun x hx => h1 x (by simp [hx]))
        (fun x hx => h2 x (by simp [hx])) h.2
      rw [hd, ht]

lemma natRepr_inj_pos {a b : ℕ} (ha : 0 < a) (hb : 0 < b)
    (h : natRepr a = natRepr b) : a = b := by
  unfold natRepr at h
  rw [if_neg (Nat.pos_iff_ne_zero.mp ha), if_neg (Nat.pos_iff_ne_zero.mp hb),
    toDigitsRev_eq_digits a a le_rfl, toDigitsRev_eq_digits b b le_rfl] at h
  have hdata : ((Nat.digits 10 a).map digitChar).reverse =
      ((Nat.digits 10 b).map digitChar).reverse := congrArg String.data h
  have hmap := List.reverse_injective hdata
  have hdigits := map_digitChar_inj _ _
    (fun d hd => Nat.digits_lt_base (by norm_num) hd)
    (fun d hd => Nat.digits_lt_base (by norm_num) hd) hmap
  exact Nat.digits.injective 10 hdigits

lemma appendNatRepr_inj (pre : String) {a b : ℕ} (ha : 0 < a)
    (hb : 0 < b) (h : pre ++ natRepr a = pre ++ natRepr b) : a = b := by
  apply natRepr_inj_pos ha hb
  have hdata := congrArg String.data h
  rw [String.data_append, String.data_append] at hdata
  have hd := List.append_cancel_left hdata
  cases hra : natRepr a
  cases hrb : natRepr b
  rw [hra, hrb] at hd
  exact congrArg String.mk hd

lemma canonicalBranchIds_succ (n : ℕ) :
    canonicalBranchIds (n + 1) =
      canonicalBranchIds n ++ ["branch-" ++ natRepr (n + 1)] := by
  unfold canonicalBranchIds
  rw [List.range_succ, List.map_append]
  rfl

lemma canonicalBranchIds_nodup (n : ℕ) : (canonicalBranchIds n).Nodup := by
  unfold canonicalBranchIds
  refine List.Nodup.map_on ?_ (List.nodup_range n)
  intro i _ j _ h
  have := appendNatRepr_inj "branch-" (Nat.succ_pos i) (Nat.succ_pos j) h
  omega

lemma updateFirst_map_id (p : ThesisBranch → Bool)
    (f : ThesisBranch → ThesisBranch) (hf : ∀ b, (f b).id = b.id) :
    ∀ l : List ThesisBranch,
      (updateFirst p f l).map (fun b => b.id) = l.map (fun b => b.id) := by
  intro l
  induction l with
  | nil => rfl
  | cons b t ih =>
    unfold updateFirst
    by_cases hp : p b = true
    · simp [hp, hf b]
    · simp [hp, ih]

lemma branches_compressPad (s : Scratchpad) :
    s.compressPad.branches = s.branches := by
  unfold Scratchpad.compressPad
  dsimp only
  split <;> rfl

lemma branches_extract (s : Scratchpad) (t : String) (now : ℕ) :
    (s.extract_and_merge t now).2.branches = s.branches := by
  unfold Scratchpad.extract_and_merge
  dsimp only
  split
  · exact branches_compressPad _
  · rfl

lemma branches_add_claim (s : Scratchpad) (a b c d : String) (now : ℕ) :
    (s.add_claim a b c d now).branches = s.branches := by
  unfold Scratchpad.add_claim
  dsimp only
  split <;> rfl

lemma branches_add_key_evidence (s : Scratchpad) (c src : String) (st : ℚ)
    (dir : Direction) (ts : String) (now : ℕ) :
    (s.add_key_evidence c src st dir ts now).branches = s.branches := by
  unfold Scratchpad.add_key_evidence
  split <;> rfl

lemma branches_runCritiqueConfidenceUpdate (s : Scratchpad) (c : String)
    (now : ℕ) : (runCritiqueConfidenceUpdate s c now).branches = s.branches := by
  unfold runCritiqueConfidenceUpdate
  split
  · rfl
  · split <;> rfl

lemma branches_runCritique (s : Scratchpad) (c : String) (now : ℕ) :
    (runCritique s c now).1.branches = s.branches := by
  unfold runCritique
  dsimp only
  rw [branches_runCritiqueConfidenceUpdate]
  exact branches_extract s c now

lemma branchIds_updateBranchConf (s : Scratchpad) (bid : String) (v : ℚ)
    (now : ℕ) : branchIds (s.update_branch_confidence bid v now) = branchIds s := by
  unfold Scratchpad.update_branch_confidence
  split
  · rfl
  · unfold branchIds
    dsimp only
    apply updateFirst_map_id
    intro b
    rfl

lemma branchIds_deactivate (s : Scratchpad) (bid : String) (now : ℕ) :
    branchIds (s.deactivate_branch bid now) = branchIds s := by
  unfold Scratchpad.deactivate_branch
  split
  · rfl
  · unfold branchIds
    dsimp only
    apply updateFirst_map_id
    intro b
    rfl

/-- Each operation either leaves the branch-id list unchanged or appends
exactly the canonical next id. -/
lemma branchIds_applyOp (s : Scratchpad) (op : Op) :
    branchIds (applyOp s op) = branchIds s ∨
    branchIds (applyOp s op) =
      branchIds s ++ ["branch-" ++ natRepr (s.branches.length + 1)] := by
  cases op with
  | extract t now => exact Or.inl (congrArg (List.map _) (branches_extract s t now))
  | compressOp => exact Or.inl (congrArg (List.map _) (branches_compressPad s))
  | addClaim a b c d now =>
    exact Or.inl (congrArg (List.map _) (branches_add_claim s a b c d now))
  | addKeyEv c src st dir ts now =>
    exact Or.inl (congrArg (List.map _) (branches_add_key_evidence s c src st dir ts now))
  | updateConf v now => exact Or.inl rfl
  | updateConfCritique t cc now => exact Or.inl rfl
  | incCycle now => exact Or.inl rfl
  | recordInsights n now => exact Or.inl rfl
  | createBranch th p now =>
    right
    show ((s.create_branch th p now).1.branches.map (fun b => b.id)) = _
    unfold Scratchpad.create_branch
    dsimp only
    rw [List.map_append]
    rfl
  | updateBranchConf bid v now => exact Or.inl (branchIds_updateBranchConf s bid v now)
  | deactivateBranch bid now => exact Or.inl (branchIds_deactivate s bid now)
  | clearProposals now => exact Or.inl rfl
  | critiquePass content now =>
    exact Or.inl (congrArg (List.map _) (branches_runCritique s content now))

lemma branchIdsOk_applyOp (s : Scratchpad) (op : Op) (h : branchIdsOk s) :
    branchIdsOk (applyOp s op) := by
  have hlen : (applyOp s op).branches.length =
      (branchIds (applyOp s op)).length := (List.length_map _ _).symm
  have hlen0 : s.branches.length = (branchIds s).length :=
    (List.length_map _ _).symm
  rcases branchIds_applyOp s op with heq | heq
  · unfold branchIdsOk at h ⊢
    rw [heq, hlen, heq, ← hlen0]
    exact h
  · unfold branchIdsOk at h ⊢
    rw [heq, hlen, heq, List.length_append, ← hlen0, List.length_singleton,
      canonicalBranchIds_succ, h]

lemma branchIdsOk_foldl (ops : List Op) (s : Scratchpad)
    (h : branchIdsOk s) : branchIdsOk (ops.foldl applyOp s) := by
  induction ops generalizing s with
  | nil => exact h
  | cons op rest ih => exact ih (applyOp s op) (branchIdsOk_applyOp s op h)

lemma filter_id_length_le_one {l : List ThesisBranch}
    (h : (l.map (fun b => b.id)).Nodup) (bid : String) :
    (l.filter (fun b => b.id == bid)).length ≤ 1 := by
  induction l with
  | nil => simp
  | cons b t ih =>
    simp only [List.map_cons, List.nodup_cons] at h
    by_cases hb : b.id == bid
    · have hrest : t.filter (fun x => x.id == bid) = [] := by
        refine List.filter_eq_nil_iff.mpr ?_
        intro x hx hxbid
        apply h.1
        have hxid : x.id = bid := by simpa using hxbid
        have hbid : b.id = bid := by simpa using hb
        rw [hbid, ← hxid]
        exact List.mem_map_of_mem _ hx
      simp [List.filter_cons, hb, hrest]
    · simp only [List.filter_cons, hb]
      exact ih h.2

/-- C9: starting from a fresh scratchpad, after any sequence of scratchpad
operations the i-th branch carries the id `branch-(i+1)` — `create_branch`
assigns `branch-(len+1)` and every operation either leaves the id list
unchanged or appends the canonical next id — so all branch ids are
pairwise distinct and any id addresses at most one branch (hence
`get_branch`, `update_branch_confidence` and `deactivate_branch` each act
on a unique branch). -/
theorem branch_ids_canonical_and_distinct (ops : List Op)
    (sid title : String) (now : ℕ) :
    branchIds (ops.foldl applyOp (Scratchpad.new sid title now)) =
      canonicalBranchIds
        (ops.foldl applyOp (Scratchpad.new sid title now)).branches.length ∧
    (branchIds (ops.foldl applyOp (Scratchpad.new sid title now))).Nodup ∧
    (∀ bid : String,
      ((ops.foldl applyOp (Scratchpad.new sid title now)).branches.filter
        (fun b => b.id == bid)).length ≤ 1) ∧
    (∀ (s : Scratchpad) (thesis : String) (parent : Option String)
        (t : ℕ),
      ((s.create_branch thesis parent t).2).id =
        "branch-" ++ natRepr (s.branches.length + 1)) := by
  have hok : branchIdsOk (ops.foldl applyOp (Scratchpad.new sid title now)) :=
    branchIdsOk_foldl ops _ rfl
  refine ⟨hok, ?_, ?_, ?_⟩
  · rw [hok]
    exact canonicalBranchIds_nodup _
  · intro bid
    apply filter_id_length_le_one
    show (branchIds _).Nodup
    rw [hok]
    exact canonicalBranchIds_nodup _
  · intro s thesis parent t
    rfl

/-! ## C10 — the token estimate ignores key evidence -/

lemma add_key_evidence_other_fields (s : Scratchpad)
    (c src : String) (st : ℚ) (dir : Direction) (ts : String) (now : ℕ) :
    (s.add_key_evidence c src st dir ts now).sections = s.sections ∧
    (s.add_key_evidence c src st dir ts now).confidence_history =
      s.confidence_history ∧
    (s.add_key_evidence c src st dir ts now).branches = s.branches ∧
    (s.add_key_evidence c src st dir ts now).current_branch_id =
      s.current_branch_id ∧
    (s.add_key_evidence c src st dir ts now).confidence_history =
      s.confidence_history := by
  unfold Scratchpad.add_key_evidence
  split <;> exact ⟨rfl, rfl, rfl, rfl, rfl⟩

lemma estimate_tokens_congr (s t : Scratchpad)
    (h : s.sections = t.sections) :
    s.estimate_tokens = t.estimate_tokens := by
  unfold Scratchpad.estimate_tokens
  rw [h]

lemma addEvidenceMany_state (k : ℕ) :
    (addEvidenceMany k).sections = defaultSections 0 ∧
    (addEvidenceMany k).confidence_history = [] ∧
    (addEvidenceMany k).branches = [] ∧
    (addEvidenceMany k).current_branch_id = none ∧
    (addEvidenceMany k).key_evidence.map (fun e => e.content) =
      (List.range k).map (fun i => "E" ++ natRepr (i + 1)) := by
  induction k with
  | zero => exact ⟨rfl, rfl, rfl, rfl, rfl⟩
  | succ k ih =>
    have hstep : addEvidenceMany (k + 1) =
        (addEvidenceMany k).add_key_evidence ("E" ++ natRepr (k + 1)) "src"
          (7/10) .supports "ts" 0 := by
      unfold addEvidenceMany
      rw [List.range_succ, List.foldl_append]
      rfl
    have hfields := add_key_evidence_other_fields (addEvidenceMany k)
      ("E" ++ natRepr (k + 1)) "src" (7/10) .supports "ts" 0
    have hnodup : ((addEvidenceMany k).key_evidence.any
        (fun e => e.content == "E" ++ natRepr (k + 1))) = false := by
      rw [List.any_eq_false]
      intro e he hcontra
      have hc : e.content ∈
          (addEvidenceMany k).key_evidence.map (fun e => e.content) :=
        List.mem_map_of_mem _ he
      rw [ih.2.2.2.2] at hc
      rw [List.mem_map] at hc
      obtain ⟨i, hi, hie⟩ := hc
      have : e.content = "E" ++ natRepr (k + 1) := by simpa using hcontra
      rw [← hie] at this
      have := appendNatRepr_inj "E" (Nat.succ_pos i) (Nat.succ_pos k) this
      rw [List.mem_range] at hi
      omega
    have happend : (addEvidenceMany (k + 1)).key_evidence =
        (addEvidenceMany k).key_evidence ++
          [{ content := "E" ++ natRepr (k + 1), source := "src",
             strength := 7/10, direction := .supports, timestamp := "ts" }] := by
      rw [hstep]
      unfold Scratchpad.add_key_evidence
      rw [if_neg (by simp [hnodup])]
    refine ⟨?_, ?_, ?_, ?_, ?_⟩
    · rw [hstep, (add_key_evidence_other_fields _ _ _ _ _ _ _).1, ih.1]
    · rw [hstep, (add_key_evidence_other_fields _ _ _ _ _ _ _).2.1, ih.2.1]
    · rw [hstep, (add_key_evidence_other_fields _ _ _ _ _ _ _).2.2.1,
        ih.2.2.1]
    · rw [hstep, (add_key_evidence_other_fields _ _ _ _ _ _ _).2.2.2.1,
        ih.2.2.2.1]
    · rw [happend, List.map_append, ih.2.2.2.2, List.range_succ,
        List.map_append]
      rfl

lemma joinWith_length_ge (sep : String) (hsep : 1 ≤ sep.length) :
    ∀ L : List String, L.length ≤ (joinWith sep L).length + 1 := by
  intro L
  induction L with
  | nil => simp
  | cons a t ih =>
    cases t with
    | nil => simp [joinWith]
    | cons b rest =>
      show (a :: b :: rest).length ≤
        (a ++ sep ++ joinWith sep (b :: rest)).length + 1
      rw [String.length_append, String.length_append]
      simp only [List.length_cons] at ih ⊢
      omega

lemma render_length_ge_key_evidence (s : Scratchpad)
    (h : s.key_evidence ≠ []) :
    s.key_evidence.length ≤ s.render.length + 1 := by
  unfold Scratchpad.render
  dsimp only
  refine le_trans ?_ (joinWith_length_ge "\n" (by decide) _)
  rw [if_neg h]
  simp only [List.length_append, List.length_cons, List.length_map]
  split_ifs <;> simp <;> omega

/-- C10: `estimate_tokens` is `(Σ sections ' '.join length) // 4`, a
function of the sections' content lists alone — key evidence, branches,
title and confidence state contribute nothing, so key-evidence growth can
never trip the `MAX_TOKENS` check at the end of `extract_and_merge`, while
the rendered document grows beyond any bound as key evidence
accumulates. -/
theorem estimate_tokens_ignores_key_evidence (s : Scratchpad)
    (ke : List KeyEvidence) (br : List ThesisBranch) (t : String)
    (ch : List ℚ) (cc : ℚ) (content source : String) (st : ℚ)
    (dir : Direction) (ts : String) (now N : ℕ) :
    (s.estimate_tokens =
      ((sectionContents s).map (fun c => (joinWith " " c).length)).sum / 4) ∧
    ((withOtherState s ke br t ch cc).estimate_tokens =
      s.estimate_tokens) ∧
    ((s.add_key_evidence content source st dir ts now).sections =
      s.sections) ∧
    ((s.add_key_evidence content source st dir ts now).estimate_tokens =
      s.estimate_tokens) ∧
    ((addEvidenceMany (4 * (MAX_TOKENS + N + 1) + 1)).estimate_tokens =
      (Scratchpad.new "s" "t" 0).estimate_tokens) ∧
    (MAX_TOKENS + N <
      (addEvidenceMany (4 * (MAX_TOKENS + N + 1) + 1)).render.length / 4) := by
  have hsec := (add_key_evidence_other_fields s content source st dir ts now).1
  refine ⟨?_, rfl, hsec, estimate_tokens_congr _ _ hsec, ?_, ?_⟩
  · unfold Scratchpad.estimate_tokens sectionContents
    rw [List.map_map]
    rfl
  · exact estimate_tokens_congr _ _
      ((addEvidenceMany_state (4 * (MAX_TOKENS + N + 1) + 1)).1)
  · set k := 4 * (MAX_TOKENS + N + 1) + 1 with hk
    obtain ⟨hsecs, hhist, hbr, hcb, hcont⟩ := addEvidenceMany_state k
    have hkelen : (addEvidenceMany k).key_evidence.length = k := by
      have := congrArg List.length hcont
      simpa using this
    have hkene : (addEvidenceMany k).key_evidence ≠ [] := by
      intro hnil
      rw [hnil] at hkelen
      simp [hk] at hkelen
    have hlen := render_length_ge_key_evidence (addEvidenceMany k) hkene
    rw [hkelen] at hlen
    have h4 : (MAX_TOKENS + N + 1) * 4 ≤
        ((addEvidenceMany k).render).length := by omega
    have := (Nat.le_div_iff_mul_le (by norm_num : 0 < 4)).mpr h4
    omega

end Dialectic